import Mathlib

/-!
Verification of the SurgeMQ per-client session engine (`session/session.go`)
against its natural-language specification.

The Go code is shallowly embedded: machine integers become `Nat` with the
wraparound written explicitly (`% 2 ^ 64`, `% 2 ^ 16`), pointer-mutated
messages become functional record updates, the publisher's quit channel
becomes a three-valued state (nil / open / closed), and goroutine traces
(messages handed to `writeMessage`, callbacks fired) are returned as
explicit lists.
-/

namespace SurgeMQ

/-- QoS levels of the MQTT message model (`message.QosAtMostOnce` etc.). -/
inductive QosType where
  | atMostOnce
  | atLeastOnce
  | exactlyOnce
deriving DecidableEq

/-- `message.PublishMessage`: the fields the session code reads or writes.
`packetID` is a `uint16` value kept as a `Nat`. -/
structure PublishMessage where
  qos : QosType
  topic : String
  payload : List Nat
  retain : Bool
  dup : Bool
  packetID : Nat
deriving DecidableEq

/-- `message.NewPublishMessage()`: a zero-valued message. -/
def NewPublishMessage : PublishMessage :=
  { qos := QosType.atMostOnce, topic := "", payload := [], retain := false,
    dup := false, packetID := 0 }

/-- `message.PubRelMessage`: only its packet identifier matters here. -/
structure PubRelMessage where
  packetID : Nat
deriving DecidableEq

/-- `message.Provider`: the dynamic type of elements of the publish queue,
which holds PUBLISH and PUBREL messages. -/
inductive Provider where
  | publish (m : PublishMessage)
  | pubrel (m : PubRelMessage)
deriving DecidableEq

/-- `msg.PacketID()` on a queue element. -/
def Provider.packetID : Provider → Nat
  | .publish m => m.packetID
  | .pubrel m => m.packetID

/-- `newPacketID` (session.go:311-313):
`uint16(atomic.AddUint64(&s.packetID, 1) & 0xFFFF)`.
Input: the current `packetID` counter (a `uint64`); output: the returned
16-bit identifier and the new counter value. `& 0xFFFF` keeps the low
16 bits, i.e. reduces modulo `2 ^ 16`. -/
def newPacketID (packetID : Nat) : Nat × Nat :=
  let c := (packetID + 1) % 2 ^ 64
  (c % 2 ^ 16, c)

/-- The `packetID` counter after `n` calls to `newPacketID`, starting from
the zero-initialised field of a fresh session. -/
def packetIDCounter : Nat → Nat
  | 0 => 0
  | n + 1 => (newPacketID (packetIDCounter n)).2

/-- The identifier returned by call number `n + 1` to `newPacketID`
(0-indexed: `nthPacketID 0` is the first call's result). -/
def nthPacketID (n : Nat) : Nat :=
  (newPacketID (packetIDCounter n)).1

lemma packetIDCounter_eq (n : Nat) : packetIDCounter n = n % 2 ^ 64 := by
  induction n with
  | zero => rfl
  | succ n ih =>
      show (newPacketID (packetIDCounter n)).2 = (n + 1) % 2 ^ 64
      rw [ih]
      show (n % 2 ^ 64 + 1) % 2 ^ 64 = (n + 1) % 2 ^ 64
      omega

lemma nthPacketID_eq (n : Nat) : nthPacketID n = (n + 1) % 2 ^ 16 := by
  show (newPacketID (packetIDCounter n)).1 = (n + 1) % 2 ^ 16
  rw [packetIDCounter_eq]
  show (n % 2 ^ 64 + 1) % 2 ^ 64 % 2 ^ 16 = (n + 1) % 2 ^ 16
  omega

/-- Claim C2, counterexample: the 65536-th call to `newPacketID` hands out
the identifier 0, so "the value 0 is never handed out" is false on the code
(there is no guard against 0; `65536 % 2 ^ 16 = 0`). -/
theorem c2_zero_packet_id_counterexample : nthPacketID 65535 = 0 := by
  rw [nthPacketID_eq]
  norm_num

/-- Claim C2, amended: the counter wraps at 64 bits and the n-th call
returns `n % 2 ^ 16` (here 0-indexed: call number `n + 1` returns
`(n + 1) % 2 ^ 16`); consequently 0 IS handed out on every 65536-th call —
the code has no guard against the reserved value 0. -/
theorem c2_packet_id_wrapping_counter :
    ∀ n : Nat, nthPacketID n = (n + 1) % 2 ^ 16 ∧ packetIDCounter n = n % 2 ^ 64 :=
  fun n => ⟨nthPacketID_eq n, packetIDCounter_eq n⟩

/-- The publisher's `quit` channel (`chan struct\x7b\x7d`). Nobody ever sends
on it; it is either still `nil` (the zero value, before any `start`),
allocated and open (`start` ran `make`), or closed (shutdown signalled).
A non-blocking receive (`select` with `default`) is ready only on a closed
channel: a receive from a `nil` channel blocks forever and an open channel
with no sender has nothing to deliver. -/
inductive QuitChan where
  | nilChan
  | openChan
  | closedChan
deriving DecidableEq

/-- Readiness of `case <-quit:` inside a `select` with a `default` branch. -/
def QuitChan.recvReady : QuitChan → Bool
  | .closedChan => true
  | _ => false

/-- The session fields (`session.Type` and its `config`) that the verified
operations touch. `running`/`closed` are the `int64` atomic flags, `conn`
is the connection handle (an opaque id standing for `*connection`),
`messages` is the publisher FIFO (front of the list = front of the queue),
`retained` is `retained.list`, `pubOut` models the outbound ack tracker as
an association list keyed by packet identifier, and `packetID` is the
`uint64` counter. -/
structure Session where
  id : String
  subscriptions : List (String × QosType)
  will : Option PublishMessage
  conn : Option Nat
  quit : QuitChan
  messages : List Provider
  retained : List PublishMessage
  running : Nat
  closed : Nat
  clean : Bool
  packetID : Nat
  pubOut : List (Nat × Provider)
deriving DecidableEq

/-- `message.ConnectMessage`: the fields `start` reads. -/
structure ConnectMessage where
  willFlag : Bool
  willQos : QosType
  willTopic : String
  willMessage : List Nat
  willRetain : Bool
  cleanSession : Bool
  keepAlive : Nat
deriving DecidableEq

/-- The errors `start` can produce. -/
inductive StartErr where
  | alreadyRunning
  | connectionFailed
deriving DecidableEq

/-- The will message captured by `start` (session.go:188-194):
a fresh message with the connect message's will QoS, topic, payload and
retain flag. -/
def mkWill (msg : ConnectMessage) : PublishMessage :=
  { NewPublishMessage with
    qos := msg.willQos, topic := msg.willTopic,
    payload := msg.willMessage, retain := msg.willRetain }

/-- The deferred block at the top of `start` (session.go:168-175), run
whenever `start` returns a non-nil error — including the
"Already running" return: `close(s.publisher.quit)`, `s.conn = nil`,
`atomic.StoreInt64(&s.running, 0)`. (It also calls
`s.wgSessionStarted.Done()`, which in Go panics on the already-running
path because the matching `Add(1)` only happens after the CAS succeeds.) -/
def startRollback (s : Session) : Session :=
  { s with quit := QuitChan.closedChan, conn := none, running := 0 }

/-- `start` (session.go:167-225). The CAS on `running` either fails
("Already running") or transitions 0→1; the will message and clean flag
are captured, a fresh quit channel is allocated, and the connection is
created (`connOK`/`connHandle` stand for `newConnection`'s outcome, an
external collaborator). Every error return passes through the deferred
rollback `startRollback`. -/
def start (s : Session) (msg : ConnectMessage) (connOK : Bool) (connHandle : Nat) :
    Session × Option StartErr :=
  if s.running ≠ 0 then
    (startRollback s, some StartErr.alreadyRunning)
  else
    let s1 := { s with running := 1 }
    let s2 := if msg.willFlag then { s1 with will := some (mkWill msg) } else s1
    let s3 := { s2 with clean := msg.cleanSession, quit := QuitChan.openChan }
    if connOK then
      ({ s3 with conn := some connHandle }, none)
    else
      (startRollback s3, some StartErr.connectionFailed)

/-- A session that has been started successfully and is running: `running`
is 1, the quit channel is open, a live connection handle is present. -/
def runningSession : Session :=
  { id := "cl1", subscriptions := [("a/b", QosType.atLeastOnce)], will := none,
    conn := some 1, quit := QuitChan.openChan, messages := [],
    retained := [], running := 1, closed := 0, clean := false,
    packetID := 0, pubOut := [] }

/-- A connect message used as concrete input. -/
def connMsg : ConnectMessage :=
  { willFlag := false, willQos := QosType.atMostOnce, willTopic := "",
    willMessage := [], willRetain := false, cleanSession := false,
    keepAlive := 10 }

/-- Claim C1 (code bug): calling `start` on an already-running session does
return the "already running" error, but the deferred cleanup still runs and
mutates the session: the shutdown signal is closed, the connection handle
is cleared, and the running flag is reset to 0 — contradicting "performs no
further action ... the running flag stays 1". -/
theorem c1_start_already_running_divergence :
    (start runningSession connMsg true 2).2 = some StartErr.alreadyRunning ∧
    (start runningSession connMsg true 2).1.quit = QuitChan.closedChan ∧
    (start runningSession connMsg true 2).1.conn = none ∧
    (start runningSession connMsg true 2).1.running = 0 :=
  ⟨rfl, rfl, rfl, rfl⟩

/-- The record of one `callbacks.onClose(id, subscriptions)` invocation. -/
structure OnCloseCall where
  id : String
  subscriptions : List (String × QosType)
deriving DecidableEq

/-- `stop` (session.go:228-249). The CAS on `closed` either fails (a
concurrent or earlier stop already ran: wait and return, no mutation) or
transitions 0→1; the transport is closed (errors only logged — `closeOK`
stands for the outcome and is ignored), the worker is awaited, and for a
non-clean session the manager's `onClose` callback fires with the current
subscription set. Returns the new state and the list of `onClose`
invocations. -/
def stop (s : Session) (_closeOK : Bool) : Session × List OnCloseCall :=
  if s.closed ≠ 0 then
    (s, [])
  else
    let s1 := { s with closed := 1 }
    if ¬ s1.clean then
      (s1, [{ id := s1.id, subscriptions := s1.subscriptions }])
    else
      (s1, [])

/-- Claim C8: `stop` is idempotent — with `closed` already 1 it mutates
nothing and fires no callback; on the first stop of a cycle the `onClose`
callback fires with the current subscription set exactly when the session
is not clean, and never more than once. -/
theorem c8_stop_idempotent_onclose :
    ∀ (s : Session) (b : Bool),
      (s.closed ≠ 0 → stop s b = (s, [])) ∧
      (s.closed = 0 →
        (stop s b).2 =
          (if s.clean then [] else [{ id := s.id, subscriptions := s.subscriptions }]) ∧
        (stop s b).1.closed = 1 ∧
        (stop s b).2.length ≤ 1) := by
  intro s b
  constructor
  · intro h
    simp [stop, h]
  · intro h
    refine ⟨?_, ?_, ?_⟩
    · cases hc : s.clean <;> simp [stop, h, hc]
    · cases hc : s.clean <;> simp [stop, h, hc]
    · cases hc : s.clean <;> simp [stop, h, hc]

/-- Claim C8 witness: `stop` applied at concrete closed and fresh sessions. -/
theorem c8_stop_idempotent_onclose_witness :
    (stop { runningSession with closed := 1 } true =
      ({ runningSession with closed := 1 }, [])) ∧
    (stop runningSession true).2 =
      [{ id := "cl1", subscriptions := [("a/b", QosType.atLeastOnce)] }] := by
  constructor
  · exact (c8_stop_idempotent_onclose { runningSession with closed := 1 } true).1
      (by decide)
  · have h := ((c8_stop_idempotent_onclose runningSession true).2 rfl).1
    simpa [runningSession] using h

/-- The outbound copy `onSubscribedPublish` builds (session.go:259-268):
a fresh message taking QoS, topic and payload from the publisher's
message, with retain forced off ([MQTT-3.3.1-9]) and dup forced off
([MQTT-3.3.1-3]); the packet identifier stays 0. -/
def mkOutbound (msg : PublishMessage) : PublishMessage :=
  { NewPublishMessage with
    qos := msg.qos, topic := msg.topic, payload := msg.payload,
    retain := false, dup := false }

/-- `onSubscribedPublish` (session.go:258-289). For a QoS-at-most-once
message the non-blocking receive on `publisher.quit` detects a closed
channel (client offline): the copy goes to the manager's `onPublish`
callback and the queue is untouched. In every other case — including a
`nil` quit channel, where the receive is never ready and the `select`
takes its `default` branch — the copy is pushed to the back of the
publish queue. Returns the new state and the list of `onPublish`
invocations `(id, message)`. -/
def onSubscribedPublish (s : Session) (msg : PublishMessage) :
    Session × List (String × PublishMessage) :=
  let m := mkOutbound msg
  if msg.qos = QosType.atMostOnce then
    if s.quit.recvReady then
      (s, [(s.id, m)])
    else
      ({ s with messages := s.messages ++ [Provider.publish m] }, [])
  else
    ({ s with messages := s.messages ++ [Provider.publish m] }, [])

/-- Claim C3: a QoS-at-most-once message arriving while the shutdown
signal is closed never enters the publish queue and is handed to the
offline `onPublish` callback instead, as a copy with retain and dup forced
off; and whatever the branch, the copy handed over or queued has retain
and dup forced off regardless of the publisher's flags. -/
theorem c3_offline_qos0_redirect :
    ∀ (s : Session) (msg : PublishMessage),
      msg.qos = QosType.atMostOnce → s.quit = QuitChan.closedChan →
      ((onSubscribedPublish s msg).1.messages = s.messages ∧
       ∃ m, (onSubscribedPublish s msg).2 = [(s.id, m)] ∧
         m.retain = false ∧ m.dup = false ∧
         m.qos = msg.qos ∧ m.topic = msg.topic ∧ m.payload = msg.payload) ∧
      (∀ (s2 : Session) (msg2 : PublishMessage),
        ∃ m2, m2.retain = false ∧ m2.dup = false ∧
          ((onSubscribedPublish s2 msg2).1.messages =
              s2.messages ++ [Provider.publish m2] ∨
           (onSubscribedPublish s2 msg2).2 = [(s2.id, m2)])) := by
  intro s msg hq hquit
  constructor
  · refine ⟨?_, mkOutbound msg, ?_, rfl, rfl, rfl, rfl, rfl⟩
    · simp [onSubscribedPublish, hq, hquit, QuitChan.recvReady]
    · simp [onSubscribedPublish, hq, hquit, QuitChan.recvReady]
  · intro s2 msg2
    refine ⟨mkOutbound msg2, rfl, rfl, ?_⟩
    by_cases h2 : msg2.qos = QosType.atMostOnce
    · cases hr : s2.quit <;>
        simp [onSubscribedPublish, h2, hr, QuitChan.recvReady]
    · simp [onSubscribedPublish, h2]

/-- Claim C3 witness: a retained, dup-flagged QoS0 publish delivered to an
offline session (quit channel closed). -/
theorem c3_offline_qos0_redirect_witness :
    (onSubscribedPublish { runningSession with quit := QuitChan.closedChan }
        { qos := QosType.atMostOnce, topic := "a/b", payload := [104, 105],
          retain := true, dup := true, packetID := 0 }).1.messages =
      [] ∧
    ∃ m, (onSubscribedPublish { runningSession with quit := QuitChan.closedChan }
        { qos := QosType.atMostOnce, topic := "a/b", payload := [104, 105],
          retain := true, dup := true, packetID := 0 }).2 =
      [("cl1", m)] ∧ m.retain = false ∧ m.dup = false := by
  have h := c3_offline_qos0_redirect
    { runningSession with quit := QuitChan.closedChan }
    { qos := QosType.atMostOnce, topic := "a/b", payload := [104, 105],
      retain := true, dup := true, packetID := 0 } rfl rfl
  obtain ⟨⟨hmsg, m, hcb, hr, hd, -⟩, -⟩ := h
  exact ⟨hmsg, m, hcb, hr, hd⟩

/-- Claim C10: on a session never started (`quit` still `nil`), a
QoS-at-most-once message is appended to the publish queue — the receive on
the nil channel is never ready, so the `select` falls through to
`default` — and the offline `onPublish` callback is not invoked. -/
theorem c10_nil_quit_queues_qos0 :
    ∀ (s : Session) (msg : PublishMessage),
      s.quit = QuitChan.nilChan → msg.qos = QosType.atMostOnce →
      QuitChan.recvReady QuitChan.nilChan = false ∧
      (onSubscribedPublish s msg).1.messages =
        s.messages ++ [Provider.publish (mkOutbound msg)] ∧
      (onSubscribedPublish s msg).2 = [] := by
  intro s msg hquit hq
  refine ⟨rfl, ?_, ?_⟩ <;>
    simp [onSubscribedPublish, hq, hquit, QuitChan.recvReady]

/-- Claim C10 witness: a fresh, never-started session receiving a QoS0
message queues it. -/
theorem c10_nil_quit_queues_qos0_witness :
    (onSubscribedPublish { runningSession with quit := QuitChan.nilChan }
        { qos := QosType.atMostOnce, topic := "a/b", payload := [104],
          retain := true, dup := true, packetID := 0 }).1.messages =
      [Provider.publish
        { qos := QosType.atMostOnce, topic := "a/b", payload := [104],
          retain := false, dup := false, packetID := 0 }] ∧
    (onSubscribedPublish { runningSession with quit := QuitChan.nilChan }
        { qos := QosType.atMostOnce, topic := "a/b", payload := [104],
          retain := true, dup := true, packetID := 0 }).2 = [] := by
  have h := c10_nil_quit_queues_qos0
    { runningSession with quit := QuitChan.nilChan }
    { qos := QosType.atMostOnce, topic := "a/b", payload := [104],
      retain := true, dup := true, packetID := 0 } rfl rfl
  exact ⟨h.2.1, h.2.2⟩

/-- Calls `publishToTopic` makes into the topics-manager collaborator, in
order. -/
inductive TopicsEffect where
  | retainCall (m : PublishMessage)
  | publishCall (m : PublishMessage)
deriving DecidableEq

/-- The local copy recorded in `retained.list` (session.go:325-331): a
fresh message taking only QoS and topic from the published message. -/
def retainedCopy (msg : PublishMessage) : PublishMessage :=
  { NewPublishMessage with qos := msg.qos, topic := msg.topic }

/-- `publishToTopic` (session.go:316-342). If the message carries the
retain flag, `topicsMgr.Retain` is called with it (errors only logged,
`retainErr` stands for the outcome) and, when additionally the QoS is
at-most-once, a local copy is appended to `retained.list`; the retain flag
is then cleared on the message before it is handed to `topicsMgr.Publish`
(errors again only logged, `pubErr`). The function always returns `nil`
(`none`). Result: new state, topics-manager calls in order, returned
error. -/
def publishToTopic (s : Session) (msg : PublishMessage)
    (_retainErr _pubErr : Bool) :
    Session × List TopicsEffect × Option Unit :=
  let (s1, effs1) :=
    if msg.retain then
      (if msg.qos = QosType.atMostOnce then
         { s with retained := s.retained ++ [retainedCopy msg] }
       else s,
       [TopicsEffect.retainCall msg])
    else (s, [])
  let forwarded := { msg with retain := false }
  (s1, effs1 ++ [TopicsEffect.publishCall forwarded], none)

/-- Claim C9: `publishToTopic` calls `Retain` exactly when the message's
retain flag is set; it appends a local copy to the retained list exactly
when the message is retained AND QoS-at-most-once; the message forwarded
to `Publish` has the retain flag cleared (every `Publish` call carries
retain = false); and collaborator errors are never propagated — the
returned error is always `nil`. -/
theorem c9_publish_to_topic :
    ∀ (s : Session) (msg : PublishMessage) (rErr pErr : Bool),
      (TopicsEffect.retainCall msg ∈ (publishToTopic s msg rErr pErr).2.1 ↔
        msg.retain = true) ∧
      ((publishToTopic s msg rErr pErr).1.retained =
        s.retained ++
          (if msg.retain = true ∧ msg.qos = QosType.atMostOnce then
            [retainedCopy msg] else [])) ∧
      (TopicsEffect.publishCall { msg with retain := false } ∈
        (publishToTopic s msg rErr pErr).2.1) ∧
      (∀ m, TopicsEffect.publishCall m ∈ (publishToTopic s msg rErr pErr).2.1 →
        m.retain = false) ∧
      (publishToTopic s msg rErr pErr).2.2 = none := by
  intro s msg rErr pErr
  have heff : (publishToTopic s msg rErr pErr).2.1 =
      (if msg.retain = true then [TopicsEffect.retainCall msg] else []) ++
        [TopicsEffect.publishCall { msg with retain := false }] := by
    by_cases hr : msg.retain = true <;>
      by_cases hq : msg.qos = QosType.atMostOnce <;>
        simp [publishToTopic, hr, hq]
  refine ⟨?_, ?_, ?_, ?_, rfl⟩
  · rw [heff]
    by_cases hr : msg.retain = true <;> simp [hr]
  · by_cases hr : msg.retain = true <;>
      by_cases hq : msg.qos = QosType.atMostOnce <;>
        simp [publishToTopic, hr, hq]
  · rw [heff]
    simp
  · intro m hm
    rw [heff] at hm
    rcases List.mem_append.mp hm with h1 | h2
    · by_cases hr : msg.retain = true <;> simp [hr] at h1
    · have h3 : m = { msg with retain := false } := by
        simpa using h2
      rw [h3]

/-- The test `elem.Value.(type)` + `m.QoS() == message.QosAtMostOnce` used
by the worker's deferred drain (session.go:381-386). -/
def isQos0Publish : Provider → Bool
  | .publish m => m.qos == QosType.atMostOnce
  | .pubrel _ => false

/-- The drain loop of `publishWorker`'s deferred block (session.go:377-388):
walks the queue front to back and removes exactly the QoS-at-most-once
PUBLISH elements. -/
def drainLoop : List Provider → List Provider
  | [] => []
  | m :: rest =>
    if isQos0Publish m then drainLoop rest else m :: drainLoop rest

/-- The deferred block of `publishWorker` (session.go:376-394): drains the
queue and signals the `publisher.stopped` barrier (the returned flag). -/
def publishWorkerExit (s : Session) : Session × Bool :=
  ({ s with messages := drainLoop s.messages }, true)

lemma drainLoop_eq_filter (l : List Provider) :
    drainLoop l = l.filter (fun m => !(isQos0Publish m)) := by
  induction l with
  | nil => rfl
  | cons m rest ih =>
      by_cases h : isQos0Publish m = true <;>
        simp [drainLoop, List.filter, h, ih]

/-- Claim C4: on worker exit the queue is drained by removing exactly the
QoS-at-most-once PUBLISH messages — every QoS>0 PUBLISH and every PUBREL
remains, in order — and the stop barrier is signalled. -/
theorem c4_worker_exit_drains_qos0 :
    ∀ s : Session,
      (publishWorkerExit s).1.messages =
        s.messages.filter (fun m => !(isQos0Publish m)) ∧
      (∀ m ∈ s.messages, isQos0Publish m = false →
        m ∈ (publishWorkerExit s).1.messages) ∧
      (∀ m ∈ (publishWorkerExit s).1.messages, isQos0Publish m = false) ∧
      (publishWorkerExit s).2 = true := by
  intro s
  refine ⟨drainLoop_eq_filter s.messages, ?_, ?_, rfl⟩
  · intro m hm hq
    show m ∈ drainLoop s.messages
    rw [drainLoop_eq_filter]
    simp [List.mem_filter, hm, hq]
  · intro m hm
    have hm2 : m ∈ drainLoop s.messages := hm
    rw [drainLoop_eq_filter] at hm2
    have := (List.mem_filter.mp hm2).2
    simpa using this

/-- Membership test of the ack tracker's map for a packet identifier. -/
def ackHasID (q : List (Nat × Provider)) (pid : Nat) : Bool :=
  q.any (fun e => e.1 == pid)

/-- Modelled from the spec: the ack tracker's `put` (the `ackQueue` file is
not under `src/`; §4.3 of the spec): stores the message keyed by its packet
identifier; if an entry already exists for that identifier, the new
registration is ignored. -/
def ackPut (q : List (Nat × Provider)) (m : Provider) : List (Nat × Provider) :=
  if ackHasID q m.packetID then q else q ++ [(m.packetID, m)]

/-- Modelled from the spec: the ack tracker's `ack` (the `ackQueue` file is
not under `src/`; §4.3 of the spec): removes the entry for the message's
packet identifier if present; if absent, a no-op. -/
def ackAck (q : List (Nat × Provider)) (pid : Nat) : List (Nat × Provider) :=
  q.filter (fun e => !(e.1 == pid))

/-- The registration step the worker performs on a dequeued message before
transmission (session.go:419-433): a PUBREL is put on the outbound ack
tracker; a QoS>0 PUBLISH first gets a packet identifier from
`newPacketID` — but only when its identifier is still 0 — and is then put
on the tracker; a QoS0 PUBLISH is untouched. Returns the (possibly
updated) message, the new tracker and the new `packetID` counter. -/
def workerRegister (m : Provider) (pubOut : List (Nat × Provider))
    (packetID : Nat) : Provider × List (Nat × Provider) × Nat :=
  match m with
  | .pubrel _ => (m, ackPut pubOut m, packetID)
  | .publish p =>
    match p.qos with
    | .atMostOnce => (m, pubOut, packetID)
    | _ =>
      let (p2, c2) :=
        if p.packetID = 0 then
          let r := newPacketID packetID
          ({ p with packetID := r.1 }, r.2)
        else (p, packetID)
      (Provider.publish p2, ackPut pubOut (Provider.publish p2), c2)

/-- The failure handling after `writeMessage` returns an error
(session.go:435-447): a PUBREL's registration is acked away (rolled back);
a QoS>0 PUBLISH gets its dup flag set and its registration acked away; a
QoS0 PUBLISH is untouched. Returns the (possibly updated) message and the
new tracker; the caller then pushes the message to the queue's tail and
the worker returns. -/
def workerOnWriteError (m : Provider) (pubOut : List (Nat × Provider)) :
    Provider × List (Nat × Provider) :=
  match m with
  | .pubrel _ => (m, ackAck pubOut m.packetID)
  | .publish p =>
    match p.qos with
    | .atMostOnce => (m, pubOut)
    | _ =>
      let p2 := { p with dup := true }
      (Provider.publish p2, ackAck pubOut p2.packetID)

/-- The identity of a message modulo the fields the worker mutates
(packet identifier and dup flag of a PUBLISH); used to state ordering. -/
def Provider.core : Provider → Provider
  | .publish m => .publish { m with packetID := 0, dup := false }
  | .pubrel m => .pubrel m

lemma workerRegister_core (m : Provider) (q : List (Nat × Provider)) (c : Nat) :
    ((workerRegister m q c).1).core = m.core := by
  cases m with
  | pubrel r => rfl
  | publish p =>
      cases hq : p.qos <;>
        by_cases hp : p.packetID = 0 <;>
          simp [workerRegister, hq, hp, Provider.core]

lemma workerOnWriteError_core (m : Provider) (q : List (Nat × Provider)) :
    ((workerOnWriteError m q).1).core = m.core := by
  cases m with
  | pubrel r => rfl
  | publish p =>
      cases hq : p.qos <;> simp [workerOnWriteError, hq, Provider.core]

lemma ackAck_of_not_has (q : List (Nat × Provider)) (pid : Nat)
    (h : ackHasID q pid = false) : ackAck q pid = q := by
  induction q with
  | nil => rfl
  | cons e rest ih =>
      rw [ackHasID, List.any_cons] at h
      rcases Bool.or_eq_false_iff.mp h with ⟨h1, h2⟩
      rw [ackAck, List.filter_cons]
      rw [h1]
      simp only [Bool.not_false, if_pos]
      rw [show rest.filter (fun e => !(e.1 == pid)) = ackAck rest pid from rfl]
      rw [ih h2]

lemma ackAck_put_rollback (q : List (Nat × Provider)) (m : Provider)
    (h : ackHasID q m.packetID = false) :
    ackAck (ackPut q m) m.packetID = q := by
  rw [ackPut, h]
  simp only [Bool.false_eq_true, if_neg, not_false_iff]
  rw [ackAck, List.filter_append]
  rw [show (q.filter (fun e => !(e.1 == m.packetID))) = ackAck q m.packetID from rfl]
  rw [ackAck_of_not_has q m.packetID h]
  simp

/-- The worker/producer run state: the publish queue, outbound ack tracker
and `packetID` counter of the session, plus observation traces — `handed`
is the sequence of messages handed to `conn.writeMessage` in order,
`enqueued` the sequence appended by producers in order — and `alive`,
whether the worker is still in its loop (a failed write ends it). -/
structure RunState where
  queue : List Provider
  pubOut : List (Nat × Provider)
  packetID : Nat
  handed : List Provider
  enqueued : List Provider
  alive : Bool
deriving DecidableEq

/-- One observable event of a session run: a producer appending a message
to the publish queue (`onSubscribedPublish` and `restore` both
`PushBack`), or one iteration of the worker loop dequeuing the front
message and writing it to the connection, `writeOK` being the transport
outcome. -/
inductive Event where
  | enqueue (m : Provider)
  | deliver (writeOK : Bool)
deriving DecidableEq

/-- One step of a run. An enqueue appends to the queue's tail
(session.go:283-285 and 152-161). A deliver step, when the worker is alive
and the queue non-empty, pops the front element (session.go:414-416), runs
the registration step, and hands the message to `writeMessage`; on success
the loop continues, on failure the failure handling runs, the message is
pushed back to the queue's tail and the worker exits
(session.go:449-453). An empty queue means the worker is blocked on the
condition variable and nothing happens. -/
def runStep (st : RunState) : Event → RunState
  | .enqueue m =>
    { st with queue := st.queue ++ [m], enqueued := st.enqueued ++ [m] }
  | .deliver writeOK =>
    if st.alive then
      match st.queue with
      | [] => st
      | m :: rest =>
        let r := workerRegister m st.pubOut st.packetID
        if writeOK then
          { st with queue := rest, pubOut := r.2.1, packetID := r.2.2,
                    handed := st.handed ++ [r.1] }
        else
          let f := workerOnWriteError r.1 r.2.1
          { st with queue := rest ++ [f.1], pubOut := f.2,
                    packetID := r.2.2, handed := st.handed ++ [r.1],
                    alive := false }
    else st

/-- A whole run: the events applied in order. -/
def runEvents (st : RunState) : List Event → RunState
  | [] => st
  | e :: es => runEvents (runStep st e) es

lemma workerFail_rollback (m : Provider) (q : List (Nat × Provider)) (c : Nat)
    (h : ackHasID q ((workerRegister m q c).1.packetID) = false) :
    (workerOnWriteError (workerRegister m q c).1 (workerRegister m q c).2.1).2
      = q := by
  cases m with
  | pubrel r =>
      have h2 : ackHasID q (Provider.pubrel r).packetID = false := h
      simpa [workerRegister, workerOnWriteError, Provider.packetID]
        using ackAck_put_rollback q (Provider.pubrel r) h2
  | publish p =>
      cases hq : p.qos with
      | atMostOnce => simp [workerRegister, workerOnWriteError, hq]
      | atLeastOnce =>
          by_cases hp : p.packetID = 0
          · have h2 : ackHasID q
                (Provider.publish
                  { p with packetID := (newPacketID c).1 }).packetID = false := by
              simpa [workerRegister, hq, hp, Provider.packetID] using h
            have hr := ackAck_put_rollback q
              (Provider.publish { p with packetID := (newPacketID c).1 }) h2
            simpa [workerRegister, workerOnWriteError, hq, hp,
              Provider.packetID] using hr
          · have h2 : ackHasID q (Provider.publish p).packetID = false := by
              simpa [workerRegister, hq, hp, Provider.packetID] using h
            have hr := ackAck_put_rollback q (Provider.publish p) h2
            simpa [workerRegister, workerOnWriteError, hq, hp,
              Provider.packetID] using hr
      | exactlyOnce =>
          by_cases hp : p.packetID = 0
          · have h2 : ackHasID q
                (Provider.publish
                  { p with packetID := (newPacketID c).1 }).packetID = false := by
              simpa [workerRegister, hq, hp, Provider.packetID] using h
            have hr := ackAck_put_rollback q
              (Provider.publish { p with packetID := (newPacketID c).1 }) h2
            simpa [workerRegister, workerOnWriteError, hq, hp,
              Provider.packetID] using hr
          · have h2 : ackHasID q (Provider.publish p).packetID = false := by
              simpa [workerRegister, hq, hp, Provider.packetID] using h
            have hr := ackAck_put_rollback q (Provider.publish p) h2
            simpa [workerRegister, workerOnWriteError, hq, hp,
              Provider.packetID] using hr

lemma workerFail_dup (p : PublishMessage) (q : List (Nat × Provider)) (c : Nat)
    (hq : p.qos ≠ QosType.atMostOnce) :
    ∃ p2, (workerOnWriteError (workerRegister (Provider.publish p) q c).1
        (workerRegister (Provider.publish p) q c).2.1).1
      = Provider.publish p2 ∧ p2.dup = true := by
  cases hqos : p.qos with
  | atMostOnce => exact absurd hqos hq
  | atLeastOnce =>
      by_cases hp : p.packetID = 0 <;>
        simp [workerRegister, workerOnWriteError, hqos, hp]
  | exactlyOnce =>
      by_cases hp : p.packetID = 0 <;>
        simp [workerRegister, workerOnWriteError, hqos, hp]

/-- Claim C5: when the write of a dequeued message fails, the ack-tracker
registration just made for it is rolled back (the tracker returns to its
pre-step contents, provided the identifier registered was not already
tracked), the dup flag is set when the message is a QoS>0 PUBLISH, the
message is pushed back to the tail of the publish queue, and the worker
terminates — a further deliver step changes nothing. -/
theorem c5_write_failure_rollback_requeue :
    ∀ (st : RunState) (m : Provider) (rest : List Provider),
      st.alive = true → st.queue = m :: rest →
      ackHasID st.pubOut ((workerRegister m st.pubOut st.packetID).1.packetID)
        = false →
      (runStep st (Event.deliver false)).alive = false ∧
      (runStep st (Event.deliver false)).pubOut = st.pubOut ∧
      (∃ m2, (runStep st (Event.deliver false)).queue = rest ++ [m2] ∧
        m2.core = m.core ∧
        (∀ p, m = Provider.publish p → p.qos ≠ QosType.atMostOnce →
          ∃ p2, m2 = Provider.publish p2 ∧ p2.dup = true)) ∧
      (∀ b, runStep (runStep st (Event.deliver false)) (Event.deliver b) =
        runStep st (Event.deliver false)) := by
  intro st m rest halive hqueue hfresh
  have hstep : runStep st (Event.deliver false) =
      { st with
        queue := rest ++
          [(workerOnWriteError (workerRegister m st.pubOut st.packetID).1
              (workerRegister m st.pubOut st.packetID).2.1).1],
        pubOut := (workerOnWriteError (workerRegister m st.pubOut st.packetID).1
              (workerRegister m st.pubOut st.packetID).2.1).2,
        packetID := (workerRegister m st.pubOut st.packetID).2.2,
        handed := st.handed ++ [(workerRegister m st.pubOut st.packetID).1],
        alive := false } := by
    simp [runStep, halive, hqueue]
  refine ⟨?_, ?_, ?_, ?_⟩
  · rw [hstep]
  · rw [hstep]
    exact workerFail_rollback m st.pubOut st.packetID hfresh
  · refine ⟨(workerOnWriteError (workerRegister m st.pubOut st.packetID).1
        (workerRegister m st.pubOut st.packetID).2.1).1, ?_, ?_, ?_⟩
    · rw [hstep]
    · rw [workerOnWriteError_core, workerRegister_core]
    · intro p hm hq
      subst hm
      exact workerFail_dup p st.pubOut st.packetID hq
  · intro b
    rw [hstep]
    simp [runStep]

/-- Claim C5 witness: a failing write of a QoS1 PUBLISH dequeued from a
one-element queue with an empty tracker. -/
theorem c5_write_failure_rollback_requeue_witness :
    (runStep
        { queue := [Provider.publish
            { qos := QosType.atLeastOnce, topic := "a/b", payload := [104],
              retain := false, dup := false, packetID := 5 }],
          pubOut := [], packetID := 0, handed := [], enqueued := [],
          alive := true } (Event.deliver false)).alive = false ∧
    (runStep
        { queue := [Provider.publish
            { qos := QosType.atLeastOnce, topic := "a/b", payload := [104],
              retain := false, dup := false, packetID := 5 }],
          pubOut := [], packetID := 0, handed := [], enqueued := [],
          alive := true } (Event.deliver false)).pubOut = [] ∧
    (∃ m2, (runStep
        { queue := [Provider.publish
            { qos := QosType.atLeastOnce, topic := "a/b", payload := [104],
              retain := false, dup := false, packetID := 5 }],
          pubOut := [], packetID := 0, handed := [], enqueued := [],
          alive := true } (Event.deliver false)).queue = [] ++ [m2] ∧
      m2.core = (Provider.publish
            { qos := QosType.atLeastOnce, topic := "a/b", payload := [104],
              retain := false, dup := false, packetID := 5 }).core ∧
      (∀ p, Provider.publish
            { qos := QosType.atLeastOnce, topic := "a/b", payload := [104],
              retain := false, dup := false, packetID := 5 }
          = Provider.publish p → p.qos ≠ QosType.atMostOnce →
        ∃ p2, m2 = Provider.publish p2 ∧ p2.dup = true)) := by
  have h := c5_write_failure_rollback_requeue
    { queue := [Provider.publish
        { qos := QosType.atLeastOnce, topic := "a/b", payload := [104],
          retain := false, dup := false, packetID := 5 }],
      pubOut := [], packetID := 0, handed := [], enqueued := [],
      alive := true }
    (Provider.publish
      { qos := QosType.atLeastOnce, topic := "a/b", payload := [104],
        retain := false, dup := false, packetID := 5 })
    [] rfl rfl (by decide)
  exact ⟨h.1, h.2.1, h.2.2.1⟩

/-- Claim C6, counterexample: the "assigned exactly once, never
reassigned" rule breaks at the counter wrap. With the `packetID` counter
at 65535, the first dequeue of a QoS1 PUBLISH with identifier 0 assigns
`newPacketID` = 0 (the wrap value); after a failed write the message is
requeued still carrying identifier 0, so the next dequeue (by the
replacement worker) assigns again, now 1 — the identifier changed across
dequeues. -/
theorem c6_packet_id_reassigned_counterexample :
    ((workerRegister
        (Provider.publish
          { qos := QosType.atLeastOnce, topic := "t", payload := [],
            retain := false, dup := false, packetID := 0 })
        [] 65535).1).packetID = 0 ∧
    ((workerRegister
        ((workerOnWriteError
          (workerRegister
            (Provider.publish
              { qos := QosType.atLeastOnce, topic := "t", payload := [],
                retain := false, dup := false, packetID := 0 })
            [] 65535).1
          (workerRegister
            (Provider.publish
              { qos := QosType.atLeastOnce, topic := "t", payload := [],
                retain := false, dup := false, packetID := 0 })
            [] 65535).2.1).1)
        []
        ((workerRegister
          (Provider.publish
            { qos := QosType.atLeastOnce, topic := "t", payload := [],
              retain := false, dup := false, packetID := 0 })
          [] 65535).2.2)).1).packetID = 1 := by
  constructor <;> decide

/-- Claim C6, amended: a QoS>0 PUBLISH is assigned an identifier at
dequeue only when its identifier is still 0; a dequeue of a message with a
non-zero identifier changes neither the message nor the counter (so it is
never reassigned, including after a failure requeue, whose handling
preserves the identifier); when the identifier is 0 the assigned value is
the next counter value — which is 0 itself at the 16-bit wrap, in which
case the message is assigned again at its next dequeue. -/
theorem c6_packet_id_assigned_when_zero :
    ∀ (p : PublishMessage) (q : List (Nat × Provider)) (c : Nat),
      p.qos ≠ QosType.atMostOnce →
      (p.packetID ≠ 0 →
        (workerRegister (Provider.publish p) q c).1 = Provider.publish p ∧
        (workerRegister (Provider.publish p) q c).2.2 = c) ∧
      (p.packetID = 0 →
        ((workerRegister (Provider.publish p) q c).1).packetID
          = (newPacketID c).1 ∧
        (workerRegister (Provider.publish p) q c).2.2 = (newPacketID c).2) ∧
      (∀ (m : Provider) (q2 : List (Nat × Provider)),
        ((workerOnWriteError m q2).1).packetID = m.packetID) := by
  intro p q c hq
  refine ⟨?_, ?_, ?_⟩
  · intro hp
    cases hqos : p.qos with
    | atMostOnce => exact absurd hqos hq
    | atLeastOnce => simp [workerRegister, hqos, hp]
    | exactlyOnce => simp [workerRegister, hqos, hp]
  · intro hp
    cases hqos : p.qos with
    | atMostOnce => exact absurd hqos hq
    | atLeastOnce => simp [workerRegister, hqos, hp, Provider.packetID]
    | exactlyOnce => simp [workerRegister, hqos, hp, Provider.packetID]
  · intro m q2
    cases m with
    | pubrel r => rfl
    | publish p2 =>
        cases hqos : p2.qos <;>
          simp [workerOnWriteError, hqos, Provider.packetID]

/-- Claim C6 witness: a QoS1 PUBLISH with identifier 7 is untouched by a
dequeue, and one with identifier 0 gets the counter's next value. -/
theorem c6_packet_id_assigned_when_zero_witness :
    (workerRegister
        (Provider.publish
          { qos := QosType.atLeastOnce, topic := "t", payload := [],
            retain := false, dup := false, packetID := 7 })
        [] 3).1 =
      Provider.publish
        { qos := QosType.atLeastOnce, topic := "t", payload := [],
          retain := false, dup := false, packetID := 7 } ∧
    (workerRegister
        (Provider.publish
          { qos := QosType.atLeastOnce, topic := "t", payload := [],
            retain := false, dup := false, packetID := 7 })
        [] 3).2.2 = 3 := by
  exact (c6_packet_id_assigned_when_zero
    { qos := QosType.atLeastOnce, topic := "t", payload := [],
      retain := false, dup := false, packetID := 7 }
    [] 3 (by decide)).1 (by decide)

/-- The identities (cores) of a list of queued messages, i.e. the list
modulo the worker-mutated packet identifier and dup fields. -/
def cores (l : List Provider) : List Provider :=
  l.map Provider.core

lemma cores_append (a b : List Provider) :
    cores (a ++ b) = cores a ++ cores b :=
  List.map_append _ a b

lemma cores_cons (m : Provider) (l : List Provider) :
    cores (m :: l) = m.core :: cores l := rfl

/-- The ordering property of a run: while the worker is alive, the
messages handed to the transport followed by the messages still queued are
exactly the enqueued messages in enqueue order; once a write has failed,
the same holds except that the failed message `f` — the last one handed —
now sits in the queue behind the rest of the pre-failure queue and before
(only) the messages enqueued after the failure. -/
def orderInv (st : RunState) : Prop :=
  (st.alive = true →
    cores st.handed ++ cores st.queue = cores st.enqueued) ∧
  (st.alive = false →
    ∃ h f rest later,
      cores st.handed = h ++ [f] ∧
      cores st.queue = rest ++ [f] ++ later ∧
      cores st.enqueued = h ++ [f] ++ rest ++ later)

/-- The state at worker start: empty queue and traces, worker alive. -/
def initialRunState : RunState :=
  { queue := [], pubOut := [], packetID := 0, handed := [], enqueued := [],
    alive := true }

lemma orderInv_runStep (st : RunState) (e : Event) (hinv : orderInv st) :
    orderInv (runStep st e) := by
  cases e with
  | enqueue m =>
      cases halive : st.alive with
      | true =>
          have h1 := hinv.1 halive
          constructor
          · intro _
            show cores st.handed ++ cores (st.queue ++ [m]) =
              cores (st.enqueued ++ [m])
            rw [cores_append, cores_append, ← List.append_assoc, h1]
          · intro hcontra
            have : st.alive = false := hcontra
            rw [halive] at this
            exact absurd this (by simp)
      | false =>
          obtain ⟨h, f, rest, later, hh, hq, he⟩ := hinv.2 halive
          constructor
          · intro hcontra
            have : st.alive = true := hcontra
            rw [halive] at this
            exact absurd this (by simp)
          · intro _
            refine ⟨h, f, rest, later ++ [m.core], hh, ?_, ?_⟩
            · show cores (st.queue ++ [m]) = rest ++ [f] ++ (later ++ [m.core])
              rw [cores_append, hq]
              simp [cores, List.append_assoc]
            · show cores (st.enqueued ++ [m]) =
                h ++ [f] ++ rest ++ (later ++ [m.core])
              rw [cores_append, he]
              simp [cores, List.append_assoc]
  | deliver ok =>
      by_cases halive : st.alive = true
      · cases hq : st.queue with
        | nil =>
            have hst : runStep st (Event.deliver ok) = st := by
              simp [runStep, halive, hq]
            rw [hst]
            exact hinv
        | cons m rest =>
            have h1 := hinv.1 halive
            rw [hq, cores_cons] at h1
            have hcr : ((workerRegister m st.pubOut st.packetID).1).core =
              m.core := workerRegister_core m st.pubOut st.packetID
            cases ok with
            | true =>
                have hstep : runStep st (Event.deliver true) =
                    { st with
                      queue := rest,
                      pubOut := (workerRegister m st.pubOut st.packetID).2.1,
                      packetID := (workerRegister m st.pubOut st.packetID).2.2,
                      handed := st.handed ++
                        [(workerRegister m st.pubOut st.packetID).1] } := by
                  simp [runStep, halive, hq]
                rw [hstep]
                constructor
                · intro _
                  show cores (st.handed ++
                      [(workerRegister m st.pubOut st.packetID).1]) ++
                    cores rest = cores st.enqueued
                  rw [cores_append]
                  rw [show cores [(workerRegister m st.pubOut st.packetID).1]
                    = [m.core] from by simp [cores, hcr]]
                  rw [← h1]
                  simp [List.append_assoc]
                · intro hcontra
                  have : st.alive = false := hcontra
                  rw [halive] at this
                  exact absurd this (by simp)
            | false =>
                have hcw : ((workerOnWriteError
                    (workerRegister m st.pubOut st.packetID).1
                    (workerRegister m st.pubOut st.packetID).2.1).1).core =
                  m.core := by
                  rw [workerOnWriteError_core, hcr]
                have hstep : runStep st (Event.deliver false) =
                    { st with
                      queue := rest ++ [(workerOnWriteError
                        (workerRegister m st.pubOut st.packetID).1
                        (workerRegister m st.pubOut st.packetID).2.1).1],
                      pubOut := (workerOnWriteError
                        (workerRegister m st.pubOut st.packetID).1
                        (workerRegister m st.pubOut st.packetID).2.1).2,
                      packetID := (workerRegister m st.pubOut st.packetID).2.2,
                      handed := st.handed ++
                        [(workerRegister m st.pubOut st.packetID).1],
                      alive := false } := by
                  simp [runStep, halive, hq]
                rw [hstep]
                constructor
                · intro hcontra
                  exact absurd hcontra (by simp)
                · intro _
                  refine ⟨cores st.handed, m.core, cores rest, [], ?_, ?_, ?_⟩
                  · show cores (st.handed ++
                        [(workerRegister m st.pubOut st.packetID).1]) =
                      cores st.handed ++ [m.core]
                    rw [cores_append]
                    simp [cores, hcr]
                  · show cores (rest ++ [(workerOnWriteError
                        (workerRegister m st.pubOut st.packetID).1
                        (workerRegister m st.pubOut st.packetID).2.1).1]) =
                      cores rest ++ [m.core] ++ []
                    rw [cores_append]
                    simp [cores, hcw]
                  · rw [← h1]
                    simp [List.append_assoc]
      · have hst : runStep st (Event.deliver ok) = st := by
          simp [runStep, halive]
        rw [hst]
        exact hinv

lemma runEvents_inv (es : List Event) :
    ∀ st, orderInv st → orderInv (runEvents st es) := by
  induction es with
  | nil => intro st h; exact h
  | cons e rest ih =>
      intro st h
      exact ih (runStep st e) (orderInv_runStep st e h)

/-- Claim C7: in every run of enqueues and worker iterations starting from
a freshly started worker, the order in which the worker hands messages to
`writeMessage` equals the enqueue order — while no write has failed, the
handed messages followed by the still-queued ones are exactly the enqueued
ones in order; after a write failure the failed message (the last handed)
is re-appended to the tail of the pre-failure queue, so it sits after the
messages that were behind it and before only those enqueued later. -/
theorem c7_transmission_order_fifo :
    ∀ events : List Event, orderInv (runEvents initialRunState events) := by
  intro events
  apply runEvents_inv
  constructor
  · intro _
    rfl
  · intro h
    exact absurd h (by simp [initialRunState])

/-- Claim C7 witness: a concrete run — two enqueues, one successful
delivery, one failing delivery, one late enqueue. -/
theorem c7_transmission_order_fifo_witness :
    orderInv (runEvents initialRunState
      [Event.enqueue (Provider.publish
          { qos := QosType.atLeastOnce, topic := "a", payload := [1],
            retain := false, dup := false, packetID := 0 }),
       Event.enqueue (Provider.publish
          { qos := QosType.atMostOnce, topic := "b", payload := [2],
            retain := false, dup := false, packetID := 0 }),
       Event.deliver true,
       Event.deliver false,
       Event.enqueue (Provider.pubrel { packetID := 9 })]) :=
  c7_transmission_order_fifo
    [Event.enqueue (Provider.publish
        { qos := QosType.atLeastOnce, topic := "a", payload := [1],
          retain := false, dup := false, packetID := 0 }),
     Event.enqueue (Provider.publish
        { qos := QosType.atMostOnce, topic := "b", payload := [2],
          retain := false, dup := false, packetID := 0 }),
     Event.deliver true,
     Event.deliver false,
     Event.enqueue (Provider.pubrel { packetID := 9 })]

end SurgeMQ
